import Mathlib

/-!
Shallow embedding of the intasend-go client library (emilio-kariuki/intasend-go),
covering the transport core (src/http.go: doRequest, get, post, postPublic),
client construction (src/intasend.go: New, detectEnvironment, IsSandbox),
the structured error type (APIError), and the resource operations named by the
claims (WalletService.Create, WalletService.FundMPesa, CollectionService.MPesaSTKPush).

Modelling conventions:
- Go strings are Lean String; Go ints that never overflow in the modelled paths
  (HTTP status codes, attempt counters) are Nat; time.Duration (int64 nanoseconds)
  is Int with explicit two's-complement wrap where the source can overflow.
- float64 fields are only copied by this library, never computed with, so they are
  modelled by an opaque scalar type.
- The network is an oracle: one Outcome per attempt index describes what
  http.NewRequestWithContext / httpClient.Do / io.ReadAll / the response yield,
  and JSON parse success or failure of a response body is carried with the body.
- The context is an oracle: cancel n says whether ctx.Done fires during the
  backoff wait preceding attempt n.
- doRequest is instrumented to also return how many HTTP requests were actually
  handed to the transport (httpClient.Do reached), so round-trip counts are provable.
-/

namespace IntaSend

/-- Opaque scalar standing for Go float64 values, which this library only copies. -/
abbrev Float64 := Int

/-! ## Constants from src/intasend.go -/

def SandboxBaseURL : String := "https://sandbox.intasend.com/api/v1"

def ProductionBaseURL : String := "https://payment.intasend.com/api/v1"

def DefaultMaxRetries : Nat := 3

/-- DefaultRetryWait = 1 * time.Second, in nanoseconds. -/
def DefaultRetryWait : Int := 1000000000

def Version : String := "1.0.0"

/-! ## Header names from src/http.go -/

def headerAuthorization : String := "Authorization"

def headerContentType : String := "Content-Type"

def headerPublicAPIKey : String := "X-IntaSend-Public-API-Key"

def headerIntaSendPublicKey : String := "INTASEND_PUBLIC_API_KEY"

def headerUserAgent : String := "User-Agent"

def contentTypeJSON : String := "application/json"

/-! ## Client (src/intasend.go) — the fields the modelled paths read -/

structure Client where
  publishableKey : String
  secretKey : String
  baseURL : String
  maxRetries : Nat
  retryWait : Int
  userAgent : String
deriving DecidableEq, Repr

/-- IsSandbox from src/intasend.go. -/
def Client.isSandbox (c : Client) : Bool := c.baseURL == SandboxBaseURL

/-- IsProduction from src/intasend.go. -/
def Client.isProduction (c : Client) : Bool := c.baseURL == ProductionBaseURL

/-! ## requestConfig (src/http.go) -/

structure RequestConfig where
  method : String
  path : String
  hasBody : Bool
  wantsResult : Bool
  requiresAuth : Bool
  publicKeyOnly : Bool
deriving DecidableEq, Repr

/-- get from src/http.go: GET with requiresAuth true and a result shape. -/
def Client.get (path : String) : RequestConfig :=
  { method := "GET", path := path, hasBody := false, wantsResult := true,
    requiresAuth := true, publicKeyOnly := false }

/-- post from src/http.go: POST with requiresAuth true, a body and a result shape. -/
def Client.post (path : String) : RequestConfig :=
  { method := "POST", path := path, hasBody := true, wantsResult := true,
    requiresAuth := true, publicKeyOnly := false }

/-- postPublic from src/http.go: POST with requiresAuth false and publicKeyOnly true. -/
def Client.postPublic (path : String) : RequestConfig :=
  { method := "POST", path := path, hasBody := true, wantsResult := true,
    requiresAuth := false, publicKeyOnly := true }

/-! ## Header construction (src/http.go lines 72-82) -/

/-- Headers set on every attempt's request, in the order the source sets them.
All five header names are pairwise distinct, so modelling Header.Set by list
append is faithful for lookup. -/
def buildHeaders (c : Client) (cfg : RequestConfig) : List (String × String) :=
  let hs := [(headerContentType, contentTypeJSON), (headerUserAgent, c.userAgent)]
  let hs := if c.publishableKey ≠ "" then
      hs ++ [(headerPublicAPIKey, c.publishableKey), (headerIntaSendPublicKey, c.publishableKey)]
    else hs
  if cfg.requiresAuth ∧ c.secretKey ≠ "" then
    hs ++ [(headerAuthorization, "Bearer " ++ c.secretKey)]
  else hs

/-- Lookup of a header value by name. -/
def getHeader (hs : List (String × String)) (k : String) : Option String :=
  (hs.find? (fun p => p.1 == k)).map (fun p => p.2)

/-! ## APIError (src/checkout.go error section) and response bodies -/

structure APIError where
  httpStatusCode : Nat
  code : String
  message : String
  detail : String
  errs : List (String × List String)
  requestID : String
deriving DecidableEq, Repr

/-- Fields json.Unmarshal fills when a body parses as the APIError shape
(HTTPStatusCode has json tag "-" and is never read from the body). -/
structure APIErrParsed where
  code : String
  message : String
  detail : String
  errs : List (String × List String)
  requestID : String
deriving DecidableEq, Repr

/-- Response body together with the outcome of the two JSON decodes the source
may apply to it: unmarshalling into APIError, and unmarshalling into cfg.result. -/
structure RespBody where
  raw : String
  apiErrParse : Option APIErrParsed
  resultDecodes : Bool
deriving DecidableEq, Repr

/-- lines 116-119 of src/http.go: apiErr starts as APIError with HTTPStatusCode
set; a successful unmarshal fills the JSON fields, a failed one leaves the zero
value except Message, which is set to the raw body text. -/
def mkAPIError (status : Nat) (b : RespBody) : APIError :=
  match b.apiErrParse with
  | some p =>
      { httpStatusCode := status, code := p.code, message := p.message,
        detail := p.detail, errs := p.errs, requestID := p.requestID }
  | none =>
      { httpStatusCode := status, code := "", message := b.raw,
        detail := "", errs := [], requestID := "" }

/-! ## The retry loop (src/http.go lines 49-138) -/

/-- What one attempt yields from the transport:
newReqErr models http.NewRequestWithContext failing (before any send);
netFail models httpClient.Do failing; readFail models io.ReadAll failing;
resp models a response with a status code and a body. -/
inductive Outcome where
  | newReqErr
  | netFail (msg : String)
  | readFail (msg : String)
  | resp (status : Nat) (body : RespBody)
deriving DecidableEq, Repr

/-- The lastErr variable of the loop: a recorded retryable error. -/
inductive RetryErr where
  | network (msg : String)
  | api (e : APIError)
deriving DecidableEq, Repr

/-- The error value doRequest returns (GoResult.ok is a nil error). -/
inductive GoResult where
  | ok
  | ctxCancelled
  | newRequestFailed
  | apiError (e : APIError)
  | networkError (msg : String)
  | decodeError
deriving DecidableEq, Repr

/-- return lastErr at line 138 (a nil lastErr is returned as a nil error). -/
def finish : Option RetryErr → GoResult
  | none => GoResult.ok
  | some (RetryErr.network m) => GoResult.networkError m
  | some (RetryErr.api e) => GoResult.apiError e

/-- line 122 of src/http.go: statuses not retried
(client errors other than rate limiting). -/
def isTerminalStatus (s : Nat) : Bool :=
  decide (400 ≤ s) && decide (s < 500) && decide (s ≠ 429)

/-- line 115 of src/http.go: the non-2xx test. -/
def isNon2xx (s : Nat) : Bool := decide (s < 200) || decide (300 ≤ s)

/-- The for-loop of doRequest. attempt is the Go loop variable; remaining is the
number of iterations the budget still allows (maxRetries + 1 − attempt), the
structural recursion measure; lastErr and sent thread the recorded retryable
error and the count of requests handed to httpClient.Do. -/
def doRequestLoop (cfg : RequestConfig) (w : Nat → Outcome) (cancel : Nat → Bool) :
    Nat → Nat → Option RetryErr → Nat → GoResult × Nat
  | _, 0, lastErr, sent => (finish lastErr, sent)
  | attempt, r + 1, _lastErr, sent =>
    if 0 < attempt ∧ cancel attempt = true then (GoResult.ctxCancelled, sent)
    else
      match w attempt with
      | Outcome.newReqErr => (GoResult.newRequestFailed, sent)
      | Outcome.netFail m =>
          doRequestLoop cfg w cancel (attempt + 1) r (some (RetryErr.network m)) (sent + 1)
      | Outcome.readFail m =>
          doRequestLoop cfg w cancel (attempt + 1) r (some (RetryErr.network m)) (sent + 1)
      | Outcome.resp s b =>
          if isNon2xx s = true then
            if isTerminalStatus s = true then (GoResult.apiError (mkAPIError s b), sent + 1)
            else doRequestLoop cfg w cancel (attempt + 1) r
              (some (RetryErr.api (mkAPIError s b))) (sent + 1)
          else
            if cfg.wantsResult = true ∧ b.raw ≠ "" then
              if b.resultDecodes = true then (GoResult.ok, sent + 1)
              else (GoResult.decodeError, sent + 1)
            else (GoResult.ok, sent + 1)

/-- doRequest from src/http.go, instrumented with the number of requests sent.
The loop for attempt = 0 .. maxRetries runs at most maxRetries + 1 iterations. -/
def doRequest (c : Client) (cfg : RequestConfig) (w : Nat → Outcome) (cancel : Nat → Bool) :
    GoResult × Nat :=
  doRequestLoop cfg w cancel 0 (c.maxRetries + 1) none 0

/-! ## Backoff arithmetic (src/http.go line 51), with int64 semantics -/

/-- Two's-complement wrap of an integer into the int64 range. -/
def int64wrap (x : Int) : Int := (x + 2 ^ 63) % 2 ^ 64 - 2 ^ 63

/-- Go expression 1 << k at 64-bit int width: bits shifted past position 63 are lost. -/
def goShl1 (k : Nat) : Int := int64wrap (2 ^ k)

/-- waitTime := c.retryWait * time.Duration(1 << (attempt − 1)), an int64 product. -/
def waitTime (retryWait : Int) (attempt : Nat) : Int :=
  int64wrap (retryWait * goShl1 (attempt - 1))

/-! ## Client construction (src/intasend.go New, detectEnvironment) -/

/-- Sentinel construction errors from the errors section of the source. -/
inductive NewError where
  | noKeysProvided
  | invalidEnvironment
deriving DecidableEq, Repr

/-- State of the Client value after the option functions have run: each With...
option stores its argument into the corresponding field, on top of the defaults
New sets first. An empty baseURL means no explicit endpoint override was given. -/
structure Options where
  publishableKey : String := ""
  secretKey : String := ""
  baseURL : String := ""
  maxRetries : Nat := DefaultMaxRetries
  retryWait : Int := DefaultRetryWait
deriving DecidableEq, Repr

/-- strings.HasPrefix from the Go standard library: s begins with p. -/
def goHasPre (s p : String) : Bool := List.isPrefixOf p.data s.data

/-- detectEnvironment from src/intasend.go: publishable key checked first,
then the secret key; an empty result means no recognized key tag. -/
def detectEnvironment (pub sec : String) : String :=
  if goHasPre pub "ISPubKey_test" then SandboxBaseURL
  else if goHasPre pub "ISPubKey_live" then ProductionBaseURL
  else if goHasPre sec "ISSecretKey_test" then SandboxBaseURL
  else if goHasPre sec "ISSecretKey_live" then ProductionBaseURL
  else ""

/-- The Client value New returns on success, given the resolved base URL. -/
def mkClient (o : Options) (base : String) : Client :=
  { publishableKey := o.publishableKey, secretKey := o.secretKey, baseURL := base,
    maxRetries := o.maxRetries, retryWait := o.retryWait,
    userAgent := "intasend-go/" ++ Version }

/-- Base URL after the auto-detection step of New: detectEnvironment runs only
when no explicit override was set, exactly as in src/intasend.go. -/
def resolveBaseURL (o : Options) : String :=
  if o.baseURL = "" then detectEnvironment o.publishableKey o.secretKey else o.baseURL

/-- New from src/intasend.go: validate that at least one key is present,
auto-detect the environment when no override was given, and fail when no
environment could be determined; no partial client is returned on error. -/
def new (o : Options) : Except NewError Client :=
  if o.publishableKey = "" ∧ o.secretKey = "" then Except.error NewError.noKeysProvided
  else if resolveBaseURL o = "" then Except.error NewError.invalidEnvironment
  else Except.ok (mkClient o (resolveBaseURL o))

/-! ## WalletService (src/wallet.go) -/

def WalletTypeWorking : String := "WORKING"

structure CreateWalletRequest where
  currency : String
  label : String
  walletType : String
  canDisburse : Bool
deriving DecidableEq, Repr

/-- WalletService.Create receives the request by pointer, substitutes the
default wallet type into it in place when the field is empty, and posts that
same value. The result pairs the wire body sent with the request value the
caller observes after the call (the same pointee). -/
def WalletService.create (req : CreateWalletRequest) : CreateWalletRequest × CreateWalletRequest :=
  let req := if req.walletType = "" then { req with walletType := WalletTypeWorking } else req
  (req, req)

/-- Path and auth mode of the request WalletService.Create issues. -/
def WalletService.createConfig : RequestConfig := Client.post "/wallets/"

structure FundMPesaRequest where
  walletID : String
  phoneNumber : String
  amount : Float64
  email : String
  apiRef : String
deriving DecidableEq, Repr

/-- fundMPesaBody, the internal wire body of WalletService.FundMPesa. -/
structure FundMPesaBody where
  publicKey : String
  walletID : String
  phoneNumber : String
  amount : Float64
  email : String
  apiRef : String
  method : String
  currency : String
deriving DecidableEq, Repr

/-- WalletService.FundMPesa body construction from src/wallet.go. -/
def WalletService.fundMPesaBody (c : Client) (req : FundMPesaRequest) : FundMPesaBody :=
  { publicKey := c.publishableKey, walletID := req.walletID,
    phoneNumber := req.phoneNumber, amount := req.amount, email := req.email,
    apiRef := req.apiRef, method := "M-PESA", currency := "KES" }

/-- WalletService.FundMPesa delegates to s.client.post, so its request carries
requiresAuth true (bearer-secret auth), not the postPublic path. -/
def WalletService.fundMPesaConfig : RequestConfig := Client.post "/payment/mpesa-stk-push/"

/-! ## CollectionService.MPesaSTKPush (src/collection.go) -/

structure STKPushRequest where
  phoneNumber : String
  amount : Float64
  apiRef : String
  name : String
  email : String
  walletID : String
deriving DecidableEq, Repr

/-- stkPushRequestBody, the internal wire body of CollectionService.MPesaSTKPush. -/
structure STKPushRequestBody where
  publicKey : String
  phoneNumber : String
  amount : Float64
  apiRef : String
  name : String
  email : String
  walletID : String
  method : String
  currency : String
deriving DecidableEq, Repr

/-- CollectionService.MPesaSTKPush body construction from src/collection.go. -/
def CollectionService.mpesaSTKPushBody (c : Client) (req : STKPushRequest) : STKPushRequestBody :=
  { publicKey := c.publishableKey, phoneNumber := req.phoneNumber,
    amount := req.amount, apiRef := req.apiRef, name := req.name,
    email := req.email, walletID := req.walletID,
    method := "M-PESA", currency := "KES" }

/-- CollectionService.MPesaSTKPush delegates to s.client.post. -/
def CollectionService.mpesaSTKPushConfig : RequestConfig := Client.post "/payment/mpesa-stk-push/"

/-! ## Derived predicates and lemmas about the retry loop -/

/-- An attempt outcome on which the loop records an error and continues:
a send or read failure, or a retryable non-2xx status. -/
def loopContinues (o : Outcome) : Bool :=
  match o with
  | Outcome.newReqErr => false
  | Outcome.netFail _ => true
  | Outcome.readFail _ => true
  | Outcome.resp s _ => isNon2xx s && !isTerminalStatus s

/-- The lastErr value the loop records for a continuing outcome. -/
def recordOf (o : Outcome) : Option RetryErr :=
  match o with
  | Outcome.newReqErr => none
  | Outcome.netFail m => some (RetryErr.network m)
  | Outcome.readFail m => some (RetryErr.network m)
  | Outcome.resp s b => some (RetryErr.api (mkAPIError s b))

theorem doRequestLoop_step (cfg : RequestConfig) (w : Nat → Outcome) (cancel : Nat → Bool)
    (attempt r : Nat) (lastErr : Option RetryErr) (sent : Nat)
    (hc : attempt = 0 ∨ cancel attempt = false)
    (hw : loopContinues (w attempt) = true) :
    doRequestLoop cfg w cancel attempt (r + 1) lastErr sent
      = doRequestLoop cfg w cancel (attempt + 1) r (recordOf (w attempt)) (sent + 1) := by
  rw [doRequestLoop]
  have hnc : ¬(0 < attempt ∧ cancel attempt = true) := by
    rcases hc with h | h
    · simp [h]
    · simp [h]
  rw [if_neg hnc]
  cases hwa : w attempt with
  | newReqErr => rw [hwa] at hw; simp [loopContinues] at hw
  | netFail m => simp [recordOf, hwa]
  | readFail m => simp [recordOf, hwa]
  | resp s b =>
      rw [hwa] at hw
      simp only [loopContinues, Bool.and_eq_true, Bool.not_eq_true'] at hw
      simp [recordOf, hwa, hw.1, hw.2]

theorem doRequestLoop_exhaust (cfg : RequestConfig) (w : Nat → Outcome) (cancel : Nat → Bool)
    (hcan : ∀ n, cancel n = false) (hcont : ∀ n, loopContinues (w n) = true) :
    ∀ r attempt lastErr sent,
      doRequestLoop cfg w cancel attempt (r + 1) lastErr sent
        = (finish (recordOf (w (attempt + r))), sent + (r + 1)) := by
  intro r
  induction r with
  | zero =>
      intro attempt lastErr sent
      rw [doRequestLoop_step cfg w cancel attempt 0 lastErr sent (Or.inr (hcan attempt))
        (hcont attempt)]
      simp [doRequestLoop]
  | succ r ih =>
      intro attempt lastErr sent
      rw [doRequestLoop_step cfg w cancel attempt (r + 1) lastErr sent (Or.inr (hcan attempt))
        (hcont attempt)]
      rw [ih (attempt + 1) (recordOf (w attempt)) (sent + 1)]
      have h1 : attempt + 1 + r = attempt + (r + 1) := by omega
      have h2 : sent + 1 + (r + 1) = sent + (r + 1 + 1) := by omega
      rw [h1, h2]

theorem doRequestLoop_sent_le (cfg : RequestConfig) (w : Nat → Outcome) (cancel : Nat → Bool) :
    ∀ r attempt lastErr sent,
      (doRequestLoop cfg w cancel attempt r lastErr sent).2 ≤ sent + r := by
  intro r
  induction r with
  | zero => intro attempt lastErr sent; simp [doRequestLoop]
  | succ r ih =>
      intro attempt lastErr sent
      rw [doRequestLoop]
      split
      · simp
      · split
        · simp
        · exact le_trans (ih _ _ _) (by omega)
        · exact le_trans (ih _ _ _) (by omega)
        · split
          · split
            · simp
            · exact le_trans (ih _ _ _) (by omega)
          · split
            · split
              · simp
              · simp
            · simp

theorem doRequestLoop_advance (cfg : RequestConfig) (w : Nat → Outcome) (cancel : Nat → Bool) :
    ∀ k r attempt lastErr sent,
      (∀ m, m < k → (attempt + m = 0 ∨ cancel (attempt + m) = false)) →
      (∀ m, m < k → loopContinues (w (attempt + m)) = true) →
      ∃ le, doRequestLoop cfg w cancel attempt (k + r) lastErr sent
        = doRequestLoop cfg w cancel (attempt + k) r le (sent + k) := by
  intro k
  induction k with
  | zero =>
      intro r attempt lastErr sent _ _
      exact ⟨lastErr, by simp⟩
  | succ k ih =>
      intro r attempt lastErr sent hc hw
      have hstep : doRequestLoop cfg w cancel attempt (k + 1 + r) lastErr sent
          = doRequestLoop cfg w cancel (attempt + 1) (k + r) (recordOf (w attempt)) (sent + 1) := by
        have : k + 1 + r = (k + r) + 1 := by omega
        rw [this]
        exact doRequestLoop_step cfg w cancel attempt (k + r) lastErr sent
          (by simpa using hc 0 (by omega)) (by simpa using hw 0 (by omega))
      obtain ⟨le, hle⟩ := ih r (attempt + 1) (recordOf (w attempt)) (sent + 1)
        (fun m hm => by simpa [Nat.add_assoc, Nat.add_comm 1 m] using hc (m + 1) (by omega))
        (fun m hm => by simpa [Nat.add_assoc, Nat.add_comm 1 m] using hw (m + 1) (by omega))
      refine ⟨le, ?_⟩
      rw [hstep, hle]
      have h1 : attempt + 1 + k = attempt + (k + 1) := by omega
      have h2 : sent + 1 + k = sent + (k + 1) := by omega
      rw [h1, h2]

theorem int64wrap_id (x : Int) (h1 : -(2 ^ 63) ≤ x) (h2 : x < 2 ^ 63) : int64wrap x = x := by
  have e1 : (2 : Int) ^ 63 = 9223372036854775808 := by norm_num
  have e2 : (2 : Int) ^ 64 = 18446744073709551616 := by norm_num
  unfold int64wrap
  rw [Int.emod_eq_of_lt (by omega) (by omega)]
  omega

/-! ## Claim theorems -/

/-- C1: with maxRetries = N and every attempt answering HTTP 500, doRequest sends
exactly N + 1 requests and returns the structured API error built from the final
attempt's response; and in general no call ever sends more than maxRetries + 1
requests. -/
theorem c1_always500_retry_budget :
    (∀ (c : Client) (cfg : RequestConfig) (w : Nat → Outcome) (cancel : Nat → Bool)
        (B : Nat → RespBody),
      (∀ n, w n = Outcome.resp 500 (B n)) → (∀ n, cancel n = false) →
      doRequest c cfg w cancel
        = (GoResult.apiError (mkAPIError 500 (B c.maxRetries)), c.maxRetries + 1)) ∧
    (∀ (c : Client) (cfg : RequestConfig) (w : Nat → Outcome) (cancel : Nat → Bool),
      (doRequest c cfg w cancel).2 ≤ c.maxRetries + 1) := by
  constructor
  · intro c cfg w cancel B hw hcan
    have hcont : ∀ n, loopContinues (w n) = true := by
      intro n; rw [hw n]; simp [loopContinues]; decide
    unfold doRequest
    rw [doRequestLoop_exhaust cfg w cancel hcan hcont c.maxRetries 0 none 0]
    simp [hw c.maxRetries, recordOf, finish]
  · intro c cfg w cancel
    have h := doRequestLoop_sent_le cfg w cancel (c.maxRetries + 1) 0 none 0
    simpa [doRequest] using h

/-- C1 witness: a concrete client with maxRetries = 2 against an always-500 server
sends exactly 3 requests and surfaces the last response's error. -/
theorem c1_always500_retry_budget_witness :
    doRequest
      { publishableKey := "pk", secretKey := "sk", baseURL := "", maxRetries := 2,
        retryWait := 0, userAgent := "ua" }
      (Client.post "/x/")
      (fun _ => Outcome.resp 500 { raw := "boom", apiErrParse := none, resultDecodes := false })
      (fun _ => false)
    = (GoResult.apiError { httpStatusCode := 500, code := "", message := "boom",
                           detail := "", errs := [], requestID := "" }, 3) :=
  c1_always500_retry_budget.1
    { publishableKey := "pk", secretKey := "sk", baseURL := "", maxRetries := 2,
      retryWait := 0, userAgent := "ua" }
    (Client.post "/x/")
    (fun _ => Outcome.resp 500 { raw := "boom", apiErrParse := none, resultDecodes := false })
    (fun _ => false)
    (fun _ => { raw := "boom", apiErrParse := none, resultDecodes := false })
    (fun _ => rfl) (fun _ => rfl)

/-- C2: a non-2xx status is terminal exactly when it lies in [400, 500) and is not
429; a terminal status on the first attempt returns the structured API error after
exactly one request; a retryable 429 followed by a 200 succeeds after exactly two
requests. -/
theorem c2_status_classification :
    (∀ s : Nat, isTerminalStatus s = true ↔ (400 ≤ s ∧ s < 500 ∧ s ≠ 429)) ∧
    (∀ (c : Client) (cfg : RequestConfig) (w : Nat → Outcome) (cancel : Nat → Bool)
        (s : Nat) (b : RespBody),
      isTerminalStatus s = true → w 0 = Outcome.resp s b →
      doRequest c cfg w cancel = (GoResult.apiError (mkAPIError s b), 1)) ∧
    (∀ (c : Client) (cfg : RequestConfig) (w : Nat → Outcome) (cancel : Nat → Bool)
        (b0 b1 : RespBody),
      1 ≤ c.maxRetries → w 0 = Outcome.resp 429 b0 → w 1 = Outcome.resp 200 b1 →
      cancel 1 = false → b1.resultDecodes = true →
      doRequest c cfg w cancel = (GoResult.ok, 2)) := by
  refine ⟨?_, ?_, ?_⟩
  · intro s
    simp only [isTerminalStatus, Bool.and_eq_true, decide_eq_true_eq]
    constructor
    · rintro ⟨⟨h1, h2⟩, h3⟩; exact ⟨h1, h2, h3⟩
    · rintro ⟨h1, h2, h3⟩; exact ⟨⟨h1, h2⟩, h3⟩
  · intro c cfg w cancel s b ht hw0
    have hs : 400 ≤ s ∧ s < 500 ∧ s ≠ 429 := by
      simp only [isTerminalStatus, Bool.and_eq_true, decide_eq_true_eq] at ht
      exact ⟨ht.1.1, ht.1.2, ht.2⟩
    have hnon : isNon2xx s = true := by
      simp only [isNon2xx, Bool.or_eq_true, decide_eq_true_eq]
      omega
    unfold doRequest
    rw [doRequestLoop]
    rw [if_neg (by simp)]
    rw [hw0]
    simp [hnon, ht]
  · intro c cfg w cancel b0 b1 hN hw0 hw1 hc1 hb1
    obtain ⟨r, hr⟩ : ∃ r, c.maxRetries = r + 1 := ⟨c.maxRetries - 1, by omega⟩
    unfold doRequest
    rw [hr]
    rw [doRequestLoop_step _ w cancel 0 (r + 1) none 0 (Or.inl rfl)
      (by rw [hw0]; simp [loopContinues]; decide)]
    rw [doRequestLoop]
    rw [if_neg (by simp [hc1])]
    rw [hw1]
    simp [isNon2xx, hb1]

/-- C2 witness: concrete runs showing a first-attempt 400 stops after one request
and a 429 then 200 succeeds after two requests. -/
theorem c2_status_classification_witness :
    doRequest
      { publishableKey := "pk", secretKey := "sk", baseURL := "", maxRetries := 5,
        retryWait := 0, userAgent := "ua" }
      (Client.post "/x/")
      (fun _ => Outcome.resp 400 { raw := "bad", apiErrParse := none, resultDecodes := false })
      (fun _ => false)
    = (GoResult.apiError { httpStatusCode := 400, code := "", message := "bad",
                           detail := "", errs := [], requestID := "" }, 1) ∧
    doRequest
      { publishableKey := "pk", secretKey := "sk", baseURL := "", maxRetries := 3,
        retryWait := 0, userAgent := "ua" }
      (Client.post "/x/")
      (fun n =>
        if n = 0 then Outcome.resp 429 { raw := "r", apiErrParse := none, resultDecodes := false }
        else Outcome.resp 200 { raw := "ok", apiErrParse := none, resultDecodes := true })
      (fun _ => false)
    = (GoResult.ok, 2) :=
  ⟨c2_status_classification.2.1
      { publishableKey := "pk", secretKey := "sk", baseURL := "", maxRetries := 5,
        retryWait := 0, userAgent := "ua" }
      (Client.post "/x/")
      (fun _ => Outcome.resp 400 { raw := "bad", apiErrParse := none, resultDecodes := false })
      (fun _ => false) 400 { raw := "bad", apiErrParse := none, resultDecodes := false }
      (by decide) rfl,
    c2_status_classification.2.2
      { publishableKey := "pk", secretKey := "sk", baseURL := "", maxRetries := 3,
        retryWait := 0, userAgent := "ua" }
      (Client.post "/x/")
      (fun n =>
        if n = 0 then Outcome.resp 429 { raw := "r", apiErrParse := none, resultDecodes := false }
        else Outcome.resp 200 { raw := "ok", apiErrParse := none, resultDecodes := true })
      (fun _ => false)
      { raw := "r", apiErrParse := none, resultDecodes := false }
      { raw := "ok", apiErrParse := none, resultDecodes := true }
      (by decide) rfl rfl rfl rfl⟩

theorem buildHeaders_authorization (c : Client) (cfg : RequestConfig) :
    getHeader (buildHeaders c cfg) headerAuthorization
      = if cfg.requiresAuth ∧ c.secretKey ≠ "" then some ("Bearer " ++ c.secretKey)
        else none := by
  have k1 : ((headerContentType : String) == headerAuthorization) = false := by decide
  have k2 : ((headerUserAgent : String) == headerAuthorization) = false := by decide
  have k3 : ((headerPublicAPIKey : String) == headerAuthorization) = false := by decide
  have k4 : ((headerIntaSendPublicKey : String) == headerAuthorization) = false := by decide
  have k5 : ((headerAuthorization : String) == headerAuthorization) = true := by decide
  unfold buildHeaders getHeader
  by_cases hauth : cfg.requiresAuth ∧ c.secretKey ≠ "" <;>
    by_cases hpk : c.publishableKey ≠ "" <;>
      simp [hauth, hpk, List.find?, k1, k2, k3, k4, k5]

/-- C3: the Authorization header is present exactly when the descriptor requires
bearer-secret auth and the secret key is non-empty, and then carries the value
Bearer followed by the secret key; the postPublic path never attaches it. -/
theorem c3_authorization_header :
    (∀ (c : Client) (cfg : RequestConfig),
      getHeader (buildHeaders c cfg) headerAuthorization
        = if cfg.requiresAuth ∧ c.secretKey ≠ "" then some ("Bearer " ++ c.secretKey)
          else none) ∧
    (∀ (c : Client) (path : String),
      getHeader (buildHeaders c (Client.postPublic path)) headerAuthorization = none) := by
  refine ⟨buildHeaders_authorization, ?_⟩
  intro c path
  rw [buildHeaders_authorization c (Client.postPublic path)]
  simp [Client.postPublic]

/-- C7: on a 2xx response, a non-empty body that fails to decode into a requested
result shape is a terminal decode-contract error returned after that single
attempt, distinct from the structured API error; with an empty body or no
requested result shape the call succeeds without decoding. -/
theorem c7_decode_contract :
    ∀ (c : Client) (cfg : RequestConfig) (w : Nat → Outcome) (cancel : Nat → Bool)
      (s : Nat) (b : RespBody),
      w 0 = Outcome.resp s b → 200 ≤ s → s < 300 →
      ((cfg.wantsResult = true → b.raw ≠ "" → b.resultDecodes = false →
        doRequest c cfg w cancel = (GoResult.decodeError, 1)) ∧
       ((cfg.wantsResult = false ∨ b.raw = "") →
        doRequest c cfg w cancel = (GoResult.ok, 1)) ∧
       ∀ e, GoResult.decodeError ≠ GoResult.apiError e) := by
  intro c cfg w cancel s b hw0 h1 h2
  have hnon : isNon2xx s = false := by
    simp only [isNon2xx, Bool.or_eq_false_iff, decide_eq_false_iff_not]
    omega
  refine ⟨?_, ?_, ?_⟩
  · intro hres hraw hdec
    unfold doRequest
    rw [doRequestLoop]
    rw [if_neg (by simp)]
    rw [hw0]
    simp [hnon, hres, hraw, hdec]
  · intro hcase
    unfold doRequest
    rw [doRequestLoop]
    rw [if_neg (by simp)]
    rw [hw0]
    rcases hcase with h | h <;> simp [hnon, h]
  · intro e
    exact fun h => GoResult.noConfusion h

/-- C7 witness: a 200 whose non-empty body fails to decode yields the terminal
decode error after one request; a 204-style empty body succeeds after one request. -/
theorem c7_decode_contract_witness :
    doRequest
      { publishableKey := "pk", secretKey := "sk", baseURL := "", maxRetries := 4,
        retryWait := 0, userAgent := "ua" }
      (Client.post "/x/")
      (fun _ => Outcome.resp 200 { raw := "junk", apiErrParse := none, resultDecodes := false })
      (fun _ => false)
    = (GoResult.decodeError, 1) ∧
    doRequest
      { publishableKey := "pk", secretKey := "sk", baseURL := "", maxRetries := 4,
        retryWait := 0, userAgent := "ua" }
      (Client.post "/x/")
      (fun _ => Outcome.resp 204 { raw := "", apiErrParse := none, resultDecodes := false })
      (fun _ => false)
    = (GoResult.ok, 1) :=
  ⟨(c7_decode_contract
      { publishableKey := "pk", secretKey := "sk", baseURL := "", maxRetries := 4,
        retryWait := 0, userAgent := "ua" }
      (Client.post "/x/")
      (fun _ => Outcome.resp 200 { raw := "junk", apiErrParse := none, resultDecodes := false })
      (fun _ => false) 200 { raw := "junk", apiErrParse := none, resultDecodes := false }
      rfl (by decide) (by decide)).1 rfl (by decide) rfl,
    (c7_decode_contract
      { publishableKey := "pk", secretKey := "sk", baseURL := "", maxRetries := 4,
        retryWait := 0, userAgent := "ua" }
      (Client.post "/x/")
      (fun _ => Outcome.resp 204 { raw := "", apiErrParse := none, resultDecodes := false })
      (fun _ => false) 204 { raw := "", apiErrParse := none, resultDecodes := false }
      rfl (by decide) (by decide)).2.1 (Or.inr rfl)⟩

/-- C8: when a non-2xx response body does not parse as the APIError shape, the
constructed structured API error carries the raw body text verbatim as its message
and the response status as its status code, with the other fields at their zero
values. -/
theorem c8_unparseable_body_verbatim :
    ∀ (s : Nat) (b : RespBody), b.apiErrParse = none →
      (mkAPIError s b).message = b.raw ∧ (mkAPIError s b).httpStatusCode = s ∧
      (mkAPIError s b).code = "" ∧ (mkAPIError s b).detail = "" := by
  intro s b h
  unfold mkAPIError
  rw [h]
  exact ⟨rfl, rfl, rfl, rfl⟩

/-- C8 witness: a plain-text 502 body becomes the error message verbatim. -/
theorem c8_unparseable_body_verbatim_witness :
    (mkAPIError 502 { raw := "Bad Gateway", apiErrParse := none,
                      resultDecodes := false }).message = "Bad Gateway" ∧
    (mkAPIError 502 { raw := "Bad Gateway", apiErrParse := none,
                      resultDecodes := false }).httpStatusCode = 502 :=
  ⟨(c8_unparseable_body_verbatim 502
      { raw := "Bad Gateway", apiErrParse := none, resultDecodes := false } rfl).1,
    (c8_unparseable_body_verbatim 502
      { raw := "Bad Gateway", apiErrParse := none, resultDecodes := false } rfl).2.1⟩

theorem append_tag_ne_empty (tag rest : String) (htag : tag.data ≠ []) :
    tag ++ rest ≠ "" := by
  intro h
  have h2 := congrArg String.data h
  rw [String.data_append] at h2
  rcases List.append_eq_nil.mp h2 with ⟨hA, -⟩
  exact htag hA

/-- C5: environment selection at construction is deterministic: with no override,
a test-tagged publishable key yields the sandbox endpoint with IsSandbox true and
a live-tagged one yields production, the publishable key is consulted before the
secret key, an explicit override always wins, no keys at all fails with the
no-keys error, and unrecognized key shapes with no override fail with the
invalid-environment error, with no partial client in either failure. -/
theorem c5_environment_selection :
    (∀ o : Options, o.baseURL ≠ "" → ¬(o.publishableKey = "" ∧ o.secretKey = "") →
      new o = Except.ok (mkClient o o.baseURL)) ∧
    (∀ (o : Options) (rest : String), o.baseURL = "" →
      o.publishableKey = "ISPubKey_test" ++ rest →
      new o = Except.ok (mkClient o SandboxBaseURL) ∧
      (mkClient o SandboxBaseURL).isSandbox = true) ∧
    (∀ (o : Options) (rest : String), o.baseURL = "" →
      o.publishableKey = "ISPubKey_live" ++ rest →
      new o = Except.ok (mkClient o ProductionBaseURL)) ∧
    (∀ (o : Options) (restp rests : String), o.baseURL = "" →
      o.publishableKey = "ISPubKey_live" ++ restp →
      o.secretKey = "ISSecretKey_test" ++ rests →
      new o = Except.ok (mkClient o ProductionBaseURL)) ∧
    (∀ o : Options, o.publishableKey = "" → o.secretKey = "" →
      new o = Except.error NewError.noKeysProvided) ∧
    (∀ o : Options, o.baseURL = "" →
      goHasPre o.publishableKey "ISPubKey_test" = false →
      goHasPre o.publishableKey "ISPubKey_live" = false →
      goHasPre o.secretKey "ISSecretKey_test" = false →
      goHasPre o.secretKey "ISSecretKey_live" = false →
      ¬(o.publishableKey = "" ∧ o.secretKey = "") →
      new o = Except.error NewError.invalidEnvironment) := by
  have hsb : ¬(SandboxBaseURL = "") := by decide
  have hpb : ¬(ProductionBaseURL = "") := by decide
  have hover : ∀ o : Options, o.baseURL ≠ "" → ¬(o.publishableKey = "" ∧ o.secretKey = "") →
      new o = Except.ok (mkClient o o.baseURL) := by
    intro o hb hne
    have hres : resolveBaseURL o = o.baseURL := by
      unfold resolveBaseURL
      rw [if_neg hb]
    unfold new
    rw [if_neg hne, hres, if_neg hb]
  have hlive : ∀ (o : Options) (rest : String), o.baseURL = "" →
      o.publishableKey = "ISPubKey_live" ++ rest →
      new o = Except.ok (mkClient o ProductionBaseURL) := by
    intro o rest hb hp
    have hne : ¬(o.publishableKey = "" ∧ o.secretKey = "") := by
      rintro ⟨h1, -⟩
      rw [hp] at h1
      exact append_tag_ne_empty _ _ (by decide) h1
    have hf1 : goHasPre ("ISPubKey_live" ++ rest) "ISPubKey_test" = false := by
      simp [goHasPre, String.data_append, List.isPrefixOf_cons₂]
    have ht1 : goHasPre ("ISPubKey_live" ++ rest) "ISPubKey_live" = true := by
      simp [goHasPre, String.data_append, List.isPrefixOf_cons₂]
    have hres : resolveBaseURL o = ProductionBaseURL := by
      unfold resolveBaseURL detectEnvironment
      rw [if_pos hb, hp]
      rw [if_neg (by simp [hf1]), if_pos ht1]
    unfold new
    rw [if_neg hne, hres, if_neg hpb]
  refine ⟨hover, ?_, hlive, ?_, ?_, ?_⟩
  · intro o rest hb hp
    have hne : ¬(o.publishableKey = "" ∧ o.secretKey = "") := by
      rintro ⟨h1, -⟩
      rw [hp] at h1
      exact append_tag_ne_empty _ _ (by decide) h1
    have ht1 : goHasPre ("ISPubKey_test" ++ rest) "ISPubKey_test" = true := by
      simp [goHasPre, String.data_append, List.isPrefixOf_cons₂]
    have hres : resolveBaseURL o = SandboxBaseURL := by
      unfold resolveBaseURL detectEnvironment
      rw [if_pos hb, hp]
      rw [if_pos ht1]
    constructor
    · unfold new
      rw [if_neg hne, hres, if_neg hsb]
    · simp [Client.isSandbox, mkClient]
  · intro o restp rests hb hp _
    exact hlive o restp hb hp
  · intro o h1 h2
    unfold new
    rw [if_pos ⟨h1, h2⟩]
  · intro o hb h1 h2 h3 h4 hne
    have hres : resolveBaseURL o = "" := by
      unfold resolveBaseURL detectEnvironment
      rw [if_pos hb]
      rw [if_neg (by simp [h1]), if_neg (by simp [h2]), if_neg (by simp [h3]),
        if_neg (by simp [h4])]
    unfold new
    rw [if_neg hne, hres, if_pos rfl]

/-- C5 witness: concrete constructions exercising the override, the sandbox and
production detections, the publishable-before-secret priority, and both
configuration failures. -/
theorem c5_environment_selection_witness :
    new { publishableKey := "pk", secretKey := "sk", baseURL := "https://example.test/api" }
      = Except.ok (mkClient
          { publishableKey := "pk", secretKey := "sk", baseURL := "https://example.test/api" }
          "https://example.test/api") ∧
    new { publishableKey := "ISPubKey_test_abc", secretKey := "" }
      = Except.ok (mkClient { publishableKey := "ISPubKey_test_abc", secretKey := "" }
          SandboxBaseURL) ∧
    new { publishableKey := "ISPubKey_live_abc", secretKey := "ISSecretKey_test_z" }
      = Except.ok (mkClient
          { publishableKey := "ISPubKey_live_abc", secretKey := "ISSecretKey_test_z" }
          ProductionBaseURL) ∧
    new { publishableKey := "", secretKey := "" } = Except.error NewError.noKeysProvided ∧
    new { publishableKey := "oops", secretKey := "nope" }
      = Except.error NewError.invalidEnvironment :=
  ⟨c5_environment_selection.1
      { publishableKey := "pk", secretKey := "sk", baseURL := "https://example.test/api" }
      (by decide) (by decide),
    (c5_environment_selection.2.1
      { publishableKey := "ISPubKey_test_abc", secretKey := "" } "_abc" rfl rfl).1,
    c5_environment_selection.2.2.2.1
      { publishableKey := "ISPubKey_live_abc", secretKey := "ISSecretKey_test_z" }
      "_abc" "_z" rfl rfl rfl,
    c5_environment_selection.2.2.2.2.1
      { publishableKey := "", secretKey := "" } rfl rfl,
    c5_environment_selection.2.2.2.2.2
      { publishableKey := "oops", secretKey := "nope" } rfl rfl rfl rfl rfl (by decide)⟩

/-- C6: the computed wait before retry attempt n is exactly the configured base
wait times 2 to the power n − 1 whenever that product is representable (there is
no jitter in the formula); and if the cancellation signal fires during the wait
preceding attempt n, the call returns the cancellation immediately, after exactly
the n requests already sent and without another attempt. -/
theorem c6_backoff_and_cancellation :
    (∀ (base : Int) (n : Nat), 1 ≤ n → 0 ≤ base → base * 2 ^ (n - 1) < 2 ^ 63 →
      waitTime base n = base * 2 ^ (n - 1)) ∧
    (∀ (c : Client) (cfg : RequestConfig) (w : Nat → Outcome) (cancel : Nat → Bool) (n : Nat),
      1 ≤ n → n ≤ c.maxRetries →
      (∀ m, m < n → cancel m = false) →
      (∀ m, m < n → loopContinues (w m) = true) →
      cancel n = true →
      doRequest c cfg w cancel = (GoResult.ctxCancelled, n)) := by
  constructor
  · intro base n h1 h2 h3
    rcases eq_or_lt_of_le h2 with h0 | h0
    · rw [← h0]
      unfold waitTime
      rw [zero_mul, zero_mul]
      exact int64wrap_id 0 (by norm_num) (by norm_num)
    · have hb1 : (1 : Int) ≤ base := h0
      have hpow : (0 : Int) ≤ 2 ^ (n - 1) := by positivity
      have hk : (2 : Int) ^ (n - 1) < 2 ^ 63 :=
        lt_of_le_of_lt (le_mul_of_one_le_left hpow hb1) h3
      have hsh : goShl1 (n - 1) = 2 ^ (n - 1) := by
        unfold goShl1
        exact int64wrap_id _ (le_trans (by norm_num) hpow) hk
      unfold waitTime
      rw [hsh]
      exact int64wrap_id _ (le_trans (by norm_num) (mul_nonneg h2 hpow)) h3
  · intro c cfg w cancel n h1 h2 hcanb hcont hcn
    unfold doRequest
    have hsplit : c.maxRetries + 1 = n + (c.maxRetries - n + 1) := by omega
    rw [hsplit]
    obtain ⟨le, hle⟩ := doRequestLoop_advance cfg w cancel n (c.maxRetries - n + 1) 0 none 0
      (fun m hm => Or.inr (by simpa using hcanb m (by omega)))
      (fun m hm => by simpa using hcont m (by omega))
    rw [hle]
    simp only [Nat.zero_add]
    rw [doRequestLoop]
    rw [if_pos ⟨h1, hcn⟩]

/-- C6 witness: with a one-second base wait the third retry waits four seconds,
and a signal firing during the wait before attempt 2 aborts a failing run after
exactly 2 requests. -/
theorem c6_backoff_and_cancellation_witness :
    waitTime 1000000000 3 = 4000000000 ∧
    doRequest
      { publishableKey := "pk", secretKey := "sk", baseURL := "", maxRetries := 3,
        retryWait := 1000000000, userAgent := "ua" }
      (Client.post "/x/")
      (fun _ => Outcome.resp 500 { raw := "down", apiErrParse := none, resultDecodes := false })
      (fun m => decide (m = 2))
    = (GoResult.ctxCancelled, 2) :=
  ⟨by
    have h := c6_backoff_and_cancellation.1 1000000000 3 (by decide) (by decide) (by decide)
    simpa using h,
    c6_backoff_and_cancellation.2
      { publishableKey := "pk", secretKey := "sk", baseURL := "", maxRetries := 3,
        retryWait := 1000000000, userAgent := "ua" }
      (Client.post "/x/")
      (fun _ => Outcome.resp 500 { raw := "down", apiErrParse := none, resultDecodes := false })
      (fun m => decide (m = 2)) 2 (by decide) (by decide)
      (by intro m hm; interval_cases m <;> rfl)
      (fun m hm => rfl) rfl⟩

/-- C4 counterexample: WalletService.FundMPesa delegates to post, whose
requestConfig sets requiresAuth, so with a configured secret key its request
does carry a bearer Authorization header, contradicting the claim that no
client configuration ever produces one on this operation. -/
theorem c4_fundmpesa_counterexample :
    WalletService.fundMPesaConfig.requiresAuth = true ∧
    getHeader
      (buildHeaders
        { publishableKey := "ISPubKey_live_pk", secretKey := "ISSecretKey_live_sk",
          baseURL := ProductionBaseURL, maxRetries := 3, retryWait := 1000000000,
          userAgent := "intasend-go/1.0.0" }
        WalletService.fundMPesaConfig)
      headerAuthorization
      = some "Bearer ISSecretKey_live_sk" := by
  constructor
  · rfl
  · decide

/-- C4 amended: WalletService.FundMPesa sends a POST to /payment/mpesa-stk-push/
using bearer-secret authentication (the post helper, requiresAuth true): whenever
a secret key is configured the request carries Authorization Bearer followed by
the secret key; the publishable key travels in the body instead. -/
theorem c4_fundmpesa_bearer_secret :
    WalletService.fundMPesaConfig = Client.post "/payment/mpesa-stk-push/" ∧
    WalletService.fundMPesaConfig.method = "POST" ∧
    WalletService.fundMPesaConfig.path = "/payment/mpesa-stk-push/" ∧
    WalletService.fundMPesaConfig.requiresAuth = true ∧
    WalletService.fundMPesaConfig.publicKeyOnly = false ∧
    (∀ c : Client, c.secretKey ≠ "" →
      getHeader (buildHeaders c WalletService.fundMPesaConfig) headerAuthorization
        = some ("Bearer " ++ c.secretKey)) ∧
    (∀ (c : Client) (req : FundMPesaRequest),
      (WalletService.fundMPesaBody c req).publicKey = c.publishableKey) := by
  refine ⟨rfl, rfl, rfl, rfl, rfl, ?_, fun c req => rfl⟩
  intro c hc
  rw [buildHeaders_authorization c WalletService.fundMPesaConfig]
  rw [if_pos ⟨rfl, hc⟩]

/-- C4 amended witness: a concrete client with a secret key gets the bearer
header on the FundMPesa request. -/
theorem c4_fundmpesa_bearer_secret_witness :
    getHeader
      (buildHeaders
        { publishableKey := "pk", secretKey := "sk", baseURL := SandboxBaseURL,
          maxRetries := 3, retryWait := 1000000000, userAgent := "ua" }
        WalletService.fundMPesaConfig)
      headerAuthorization
      = some "Bearer sk" :=
  c4_fundmpesa_bearer_secret.2.2.2.2.2.1
    { publishableKey := "pk", secretKey := "sk", baseURL := SandboxBaseURL,
      maxRetries := 3, retryWait := 1000000000, userAgent := "ua" }
    (by decide)

/-- C9 counterexample: WalletService.Create substitutes the default wallet type
through the caller's pointer, so after a call with an empty wallet type the
caller-supplied request value has changed, contradicting the no-mutation part of
the claim (the wire default itself is correct). -/
theorem c9_create_counterexample :
    (WalletService.create
      { currency := "KES", label := "ops", walletType := "", canDisburse := false }).2
      ≠ { currency := "KES", label := "ops", walletType := "", canDisburse := false } ∧
    (WalletService.create
      { currency := "KES", label := "ops", walletType := "", canDisburse := false }).1.walletType
      = "WORKING" := by
  constructor
  · decide
  · rfl

/-- C9 amended: when the wallet type is empty, Create sends the default WORKING
type on the wire with every other field unchanged, but it applies the default by
mutating the caller's request in place, so the caller observes the substituted
value after the call; a non-empty wallet type passes through entirely untouched. -/
theorem c9_create_default_mutates :
    (∀ req : CreateWalletRequest, req.walletType = "" →
      (WalletService.create req).1.walletType = WalletTypeWorking ∧
      (WalletService.create req).1.currency = req.currency ∧
      (WalletService.create req).1.label = req.label ∧
      (WalletService.create req).1.canDisburse = req.canDisburse ∧
      (WalletService.create req).2 = (WalletService.create req).1) ∧
    (∀ req : CreateWalletRequest, req.walletType ≠ "" →
      WalletService.create req = (req, req)) := by
  constructor
  · intro req h
    unfold WalletService.create
    rw [if_pos h]
    exact ⟨rfl, rfl, rfl, rfl, rfl⟩
  · intro req h
    unfold WalletService.create
    rw [if_neg h]

/-- C9 amended witness: a concrete empty-typed request gets WORKING on the wire
and the caller sees the mutation; a concrete SAVING-typed request is untouched. -/
theorem c9_create_default_mutates_witness :
    ((WalletService.create
        { currency := "KES", label := "ops", walletType := "", canDisburse := true }).1.walletType
      = WalletTypeWorking ∧
      (WalletService.create
        { currency := "KES", label := "ops", walletType := "", canDisburse := true }).1.currency
      = "KES") ∧
    WalletService.create
        { currency := "USD", label := "fx", walletType := "SAVING", canDisburse := false }
      = ({ currency := "USD", label := "fx", walletType := "SAVING", canDisburse := false },
         { currency := "USD", label := "fx", walletType := "SAVING", canDisburse := false }) :=
  ⟨⟨(c9_create_default_mutates.1
      { currency := "KES", label := "ops", walletType := "", canDisburse := true } rfl).1,
    (c9_create_default_mutates.1
      { currency := "KES", label := "ops", walletType := "", canDisburse := true } rfl).2.1⟩,
    c9_create_default_mutates.2
      { currency := "USD", label := "fx", walletType := "SAVING", canDisburse := false }
      (by decide)⟩

/-- C10: the wire body CollectionService.MPesaSTKPush sends always carries the
fixed method M-PESA, the fixed currency KES, and the client's publishable key,
for every client and every caller request. -/
theorem c10_stk_push_fixed_fields :
    ∀ (c : Client) (req : STKPushRequest),
      (CollectionService.mpesaSTKPushBody c req).method = "M-PESA" ∧
      (CollectionService.mpesaSTKPushBody c req).currency = "KES" ∧
      (CollectionService.mpesaSTKPushBody c req).publicKey = c.publishableKey :=
  fun c req => ⟨rfl, rfl, rfl⟩

end IntaSend
